import Mathlib

set_option maxRecDepth 8000

/-!
Verification of the client-side session / navigation reconciliation layer of
the secondhand-shop storefront (static/app.js and its sibling script files).

The handlers are event listeners mutating browser `localStorage` and issuing
navigations; they are embedded here as pure functions from an explicit
storage state to a new storage state plus a trace of emitted actions.  A
`Timed` trace entry records the `setTimeout` delay an action was scheduled
with (0 for actions performed synchronously or with a zero delay).  Browser
primitives used by the code (`JSON.parse`, `JSON.stringify`, `atob`,
`decodeURIComponent`) are modelled executably below; JSON numbers are
modelled as integers, which covers every value the handlers read (JWT `exp`
claims and scroll offsets are integral).
-/

namespace ShopClient

/-- Model of the JavaScript values produced by `JSON.parse`: null, booleans,
(integral) numbers, strings, arrays and objects. -/
inductive Json where
  | null : Json
  | bool (b : Bool) : Json
  | num (n : Int) : Json
  | str (s : String) : Json
  | arr (elems : List Json) : Json
  | obj (fields : List (String × Json)) : Json

/-- Last-binding lookup in a JSON object's field list, matching
`JSON.parse`'s last-key-wins semantics for duplicate keys. -/
def lookupLast (fields : List (String × Json)) (key : String) : Option Json :=
  match fields with
  | [] => none
  | (k, v) :: rest =>
    match lookupLast rest key with
    | some r => some r
    | none => if k = key then some v else none

/-- JS property access `j[key]`; `none` models `undefined`, which is also
the result of reading a named property off a non-object JSON value. -/
def jsonGet (j : Json) (key : String) : Option Json :=
  match j with
  | .obj fields => lookupLast fields key
  | _ => none

/-- JS truthiness of a `JSON.parse` result. -/
def jsTruthy : Json → Bool
  | .null => false
  | .bool b => b
  | .num n => n != 0
  | .str s => s != ""
  | .arr _ => true
  | .obj _ => true

/-- JS truthiness of an optional property (`none` models `undefined`). -/
def jsTruthyOpt : Option Json → Bool
  | none => false
  | some j => jsTruthy j

/-- A whitespace character as trimmed by JS string-to-number conversion and
skipped by the JSON grammar. -/
def isWsChar (c : Char) : Bool :=
  c = ' ' || c = '\t' || c = '\n' || c = '\r'

def digitsToNatCore : List Char → Nat → Option Nat
  | [], acc => some acc
  | c :: rest, acc =>
    if c.isDigit then digitsToNatCore rest (acc * 10 + (c.toNat - 48))
    else none

def trimWs (cs : List Char) : List Char :=
  ((cs.dropWhile isWsChar).reverse.dropWhile isWsChar).reverse

/-- Model of JS `Number(string)` restricted to integral decimal literals
("" coerces to 0, anything non-integral is NaN, i.e. `none`). -/
def strToNumber (s : String) : Option Int :=
  match trimWs s.data with
  | [] => some 0
  | '-' :: rest =>
    match rest with
    | [] => none
    | _ => (digitsToNatCore rest 0).map (fun n => -(n : Int))
  | cs => (digitsToNatCore cs 0).map Int.ofNat

/-- Model of JS ToNumber on `JSON.parse` results, as used by the `<`
comparison in checkSession; `none` models NaN.  Numbers pass through,
booleans and null coerce, numeric strings parse, the empty array coerces to
0 and a singleton numeric array to its element; objects and other arrays
are NaN. -/
def jsToNumber : Option Json → Option Int
  | some (.num n) => some n
  | some (.bool b) => some (if b then 1 else 0)
  | some .null => some 0
  | some (.str s) => strToNumber s
  | some (.arr []) => some 0
  | some (.arr [.num n]) => some n
  | some (.arr _) => none
  | some (.obj _) => none
  | none => none

/-- Read a field as an (integral) number, without coercion. -/
def asNum : Option Json → Option Int
  | some (.num n) => some n
  | _ => none

/-- Read a field as a string, without coercion. -/
def asStr : Option Json → Option String
  | some (.str s) => some s
  | _ => none

/-! Executable model of `JSON.parse` (fuel-based recursive descent over the
character list; the fuel is an upper bound on nesting depth and is always
supplied as the input length plus one, which suffices). -/

def skipWs : List Char → List Char
  | [] => []
  | c :: rest => if isWsChar c then skipWs rest else c :: rest

/-- Hexadecimal digit value, for \uXXXX escapes. -/
def hexVal (c : Char) : Option Nat :=
  if '0' ≤ c ∧ c ≤ '9' then some (c.toNat - 48)
  else if 'a' ≤ c ∧ c ≤ 'f' then some (c.toNat - 97 + 10)
  else if 'A' ≤ c ∧ c ≤ 'F' then some (c.toNat - 65 + 10)
  else none

/-- Parse the body of a JSON string after the opening quote, returning the
decoded characters and the remaining input.  Raw control characters are
rejected, escapes are decoded, and \uXXXX escapes denoting surrogates are
rejected (the handlers never produce them). -/
def parseStrChars : List Char → Option (List Char × List Char)
  | [] => none
  | '"' :: rest => some ([], rest)
  | '\\' :: e :: rest =>
    match e with
    | '"' => (parseStrChars rest).map (fun p => ('"' :: p.1, p.2))
    | '\\' => (parseStrChars rest).map (fun p => ('\\' :: p.1, p.2))
    | '/' => (parseStrChars rest).map (fun p => ('/' :: p.1, p.2))
    | 'n' => (parseStrChars rest).map (fun p => ('\n' :: p.1, p.2))
    | 't' => (parseStrChars rest).map (fun p => ('\t' :: p.1, p.2))
    | 'r' => (parseStrChars rest).map (fun p => ('\r' :: p.1, p.2))
    | 'b' => (parseStrChars rest).map (fun p => (Char.ofNat 8 :: p.1, p.2))
    | 'f' => (parseStrChars rest).map (fun p => (Char.ofNat 12 :: p.1, p.2))
    | 'u' =>
      match rest with
      | h1 :: h2 :: h3 :: h4 :: rest2 =>
        match hexVal h1, hexVal h2, hexVal h3, hexVal h4 with
        | some a, some b, some c, some d =>
          let cp := a * 4096 + b * 256 + c * 16 + d
          if 55296 ≤ cp ∧ cp ≤ 57343 then none
          else (parseStrChars rest2).map (fun p => (Char.ofNat cp :: p.1, p.2))
        | _, _, _, _ => none
      | _ => none
    | _ => none
  | c :: rest =>
    if c.toNat < 32 then none
    else (parseStrChars rest).map (fun p => (c :: p.1, p.2))

/-- Parse a JSON number (integral literals only; the client only ever reads
integral claims).  Leading zeros are rejected as in the JSON grammar. -/
def parseJsonNum (cs : List Char) : Option (Int × List Char) :=
  let core : List Char → Option (Nat × List Char) := fun ds =>
    match ds.span Char.isDigit with
    | (digits, rest) =>
      match digits with
      | [] => none
      | '0' :: _ :: _ => none
      | _ => (digitsToNatCore digits 0).map (fun n => (n, rest))
  match cs with
  | '-' :: rest => (core rest).map (fun p => (-(p.1 : Int), p.2))
  | _ => (core cs).map (fun p => ((p.1 : Int), p.2))

mutual

def parseVal : Nat → List Char → Option (Json × List Char)
  | 0, _ => none
  | fuel + 1, cs =>
    match skipWs cs with
    | 'n' :: 'u' :: 'l' :: 'l' :: rest => some (.null, rest)
    | 't' :: 'r' :: 'u' :: 'e' :: rest => some (.bool true, rest)
    | 'f' :: 'a' :: 'l' :: 's' :: 'e' :: rest => some (.bool false, rest)
    | '"' :: rest => (parseStrChars rest).map (fun p => (.str ⟨p.1⟩, p.2))
    | '\x7b' :: rest =>
      match skipWs rest with
      | '\x7d' :: r2 => some (.obj [], r2)
      | r1 => (parseMembers fuel r1).map (fun p => (.obj p.1, p.2))
    | '[' :: rest =>
      match skipWs rest with
      | ']' :: r2 => some (.arr [], r2)
      | r1 => (parseElems fuel r1).map (fun p => (.arr p.1, p.2))
    | other => (parseJsonNum other).map (fun p => (.num p.1, p.2))

def parseElems : Nat → List Char → Option (List Json × List Char)
  | 0, _ => none
  | fuel + 1, cs =>
    match parseVal fuel cs with
    | none => none
    | some (v, rest) =>
      match skipWs rest with
      | ',' :: r2 => (parseElems fuel r2).map (fun p => (v :: p.1, p.2))
      | ']' :: r2 => some ([v], r2)
      | _ => none

def parseMembers : Nat → List Char → Option (List (String × Json) × List Char)
  | 0, _ => none
  | fuel + 1, cs =>
    match skipWs cs with
    | '"' :: rest =>
      match parseStrChars rest with
      | none => none
      | some (key, r1) =>
        match skipWs r1 with
        | ':' :: r2 =>
          match parseVal fuel r2 with
          | none => none
          | some (v, r3) =>
            match skipWs r3 with
            | ',' :: r4 => (parseMembers fuel r4).map (fun p => ((⟨key⟩, v) :: p.1, p.2))
            | '\x7d' :: r4 => some ([(⟨key⟩, v)], r4)
            | _ => none
        | _ => none
    | _ => none

end

/-- Model of `JSON.parse`: `none` models a thrown SyntaxError. -/
def jsonParse (s : String) : Option Json :=
  match parseVal (s.data.length + 1) s.data with
  | some (v, rest) => if (skipWs rest).isEmpty then some v else none
  | none => none

/-! Executable model of `atob` (forgiving-base64 decode to a byte list) and
of the `decodeURIComponent`/percent-encoding composition in parseJwt, whose
net effect is UTF-8 decoding of those bytes. -/

def b64Val (c : Char) : Option Nat :=
  if 'A' ≤ c ∧ c ≤ 'Z' then some (c.toNat - 65)
  else if 'a' ≤ c ∧ c ≤ 'z' then some (c.toNat - 97 + 26)
  else if '0' ≤ c ∧ c ≤ '9' then some (c.toNat - 48 + 52)
  else if c = '+' then some 62
  else if c = '/' then some 63
  else none

def mapB64 : List Char → Option (List Nat)
  | [] => some []
  | c :: rest =>
    match b64Val c, mapB64 rest with
    | some v, some vs => some (v :: vs)
    | _, _ => none

def b64Group : List Nat → Option (List Nat)
  | [] => some []
  | [_] => none
  | [a, b] => some [a * 4 + b / 16]
  | [a, b, c] => some [a * 4 + b / 16, (b % 16) * 16 + c / 4]
  | a :: b :: c :: d :: rest =>
    (b64Group rest).map
      (fun bs => (a * 4 + b / 16) :: ((b % 16) * 16 + c / 4) :: ((c % 4) * 64 + d) :: bs)

def stripB64Pad (cs : List Char) : List Char :=
  match cs.reverse with
  | '=' :: '=' :: rest => rest.reverse
  | '=' :: rest => rest.reverse
  | _ => cs

/-- Model of `window.atob`: `none` models a thrown InvalidCharacterError. -/
def atob (cs : List Char) : Option (List Nat) :=
  let noWs := cs.filter (fun c => !isWsChar c)
  let body := if noWs.length % 4 = 0 then stripB64Pad noWs else noWs
  if body.length % 4 = 1 then none
  else (mapB64 body).bind b64Group

def isCont (b : Nat) : Bool :=
  decide (128 ≤ b ∧ b ≤ 191)

/-- UTF-8 decoding of a byte list; `none` models the URIError thrown by
`decodeURIComponent` on a malformed percent-encoded sequence. -/
def utf8Decode : List Nat → Option (List Char)
  | [] => some []
  | b :: rest =>
    if b < 128 then (utf8Decode rest).map (fun cs => Char.ofNat b :: cs)
    else if 194 ≤ b ∧ b ≤ 223 then
      match rest with
      | b2 :: rest2 =>
        if isCont b2 then
          (utf8Decode rest2).map (fun cs => Char.ofNat ((b - 192) * 64 + (b2 - 128)) :: cs)
        else none
      | [] => none
    else if 224 ≤ b ∧ b ≤ 239 then
      match rest with
      | b2 :: b3 :: rest2 =>
        if isCont b2 ∧ isCont b3 then
          let cp := (b - 224) * 4096 + (b2 - 128) * 64 + (b3 - 128)
          if 2048 ≤ cp ∧ ¬(55296 ≤ cp ∧ cp ≤ 57343) then
            (utf8Decode rest2).map (fun cs => Char.ofNat cp :: cs)
          else none
        else none
      | _ => none
    else if 240 ≤ b ∧ b ≤ 244 then
      match rest with
      | b2 :: b3 :: b4 :: rest2 =>
        if isCont b2 ∧ isCont b3 ∧ isCont b4 then
          let cp := (b - 240) * 262144 + (b2 - 128) * 4096 + (b3 - 128) * 64 + (b4 - 128)
          if 65536 ≤ cp ∧ cp ≤ 1114111 then
            (utf8Decode rest2).map (fun cs => Char.ofNat cp :: cs)
          else none
        else none
      | _ => none
    else none

/-- token.split(".") on the character list. -/
def splitDot : List Char → List (List Char)
  | [] => [[]]
  | c :: rest =>
    let r := splitDot rest
    if c = '.' then [] :: r
    else
      match r with
      | h :: t => (c :: h) :: t
      | [] => [[c]]

/-- The exceptions the browser primitives inside parseJwt's try block can
throw. -/
inductive JwtErr where
  | typeErr
  | invalidChar
  | uriErr
  | syntaxErr
deriving DecidableEq, Repr

/-- The body of parseJwt (src/unnamed/part_001 lines 547-559): take the
second dot-separated segment (if it is absent, `.replace` on `undefined`
throws a TypeError), turn base64url into base64, `atob` it, UTF-8-decode
the bytes (the percent-encoding/`decodeURIComponent` round trip) and
`JSON.parse` the result.  Each failing primitive is an error, which the
surrounding catch turns into null. -/
def parseJwtBody (token : String) : Except JwtErr Json :=
  match (splitDot token.data).get? 1 with
  | none => .error .typeErr
  | some seg =>
    let b64 := seg.map (fun c => if c = '-' then '+' else if c = '_' then '/' else c)
    match atob b64 with
    | none => .error .invalidChar
    | some bytes =>
      match utf8Decode bytes with
      | none => .error .uriErr
      | some chars =>
        match jsonParse ⟨chars⟩ with
        | none => .error .syntaxErr
        | some j => .ok j

/-- parseJwt (src/unnamed/part_001 lines 547-563): the whole body runs in a
try block whose catch returns null. -/
def parseJwt (token : String) : Option Json :=
  match parseJwtBody token with
  | .ok j => some j
  | .error _ => none

/-! State and action model.  The handlers read and write three
`localStorage` keys ("jwtToken", "guestCartId" and the scroll-restoration
key "productScrollPosition") and otherwise emit effects: navigations,
custom events, a fire-and-forget fetch, console errors and spinner
toggles.  Effects are recorded in a trace; `delayMs` is the `setTimeout`
delay an effect was scheduled with (0 for synchronous effects and for
zero-delay timeouts). -/

/-- The localStorage keys touched by the session / cart / scroll handlers. -/
structure Storage where
  jwtToken : Option String
  guestCartId : Option String
  scrollData : Option String
deriving DecidableEq, Repr

/-- How a full navigation manipulates history: `assign` is
`window.location.href = target`, `replace` is `window.location.replace`. -/
inductive HistoryMode where
  | assign
  | replace
deriving DecidableEq, Repr

inductive Action where
  | navigate (mode : HistoryMode) (target : String)
  | htmxNav (url : String) (pushUrl : String)
  | emitAuthChanged (isAuthenticated : Bool) (source : Option String)
  | emitShowMessage (msgType : String) (message : String) (duration : Option Nat)
  | fetchPost (path : String)
  | logError (message : String)
  | spinnerShow
  | spinnerHide
deriving DecidableEq, Repr

structure Timed where
  delayMs : Nat
  act : Action
deriving DecidableEq, Repr

/-- clientSideLogout (src/unnamed/part_001 lines 569-592): removes the
token, emits an info notification, and in a 0 ms timeout performs a full
navigation to "/" and adds the show class to the global spinner. -/
def clientSideLogout (st : Storage) : Storage × List Timed :=
  ({ st with jwtToken := none },
   [⟨0, .emitShowMessage "info" "Zostałes pomyslnie wylogowany." none⟩,
    ⟨0, .navigate .assign "/"⟩,
    ⟨0, .spinnerShow⟩])

/-- The expired test of checkSession (src/unnamed/part_001 line 612):
`decodedToken.exp < Date.now() / 1000`, an exact rational comparison, so
for an integral claim `n` it is `n * 1000 < nowMs`; a NaN operand makes the
comparison false. -/
def isExpiredAt (nowMs : Int) (expField : Option Json) : Bool :=
  match jsToNumber expField with
  | some n => decide (n * 1000 < nowMs)
  | none => false

/-- The corrupt-token test of checkSession (src/unnamed/part_001 line 605):
`!decodedToken || !decodedToken.exp` — parseJwt returned null, or the
decoded payload or its exp claim is falsy. -/
def jwtCorrupt (token : String) : Bool :=
  match parseJwt token with
  | none => true
  | some dec => !(jsTruthy dec && jsTruthyOpt (jsonGet dec "exp"))

/-- The decoded integral expiry claim of a token, when it has one. -/
def expClaim (token : String) : Option Int :=
  (parseJwt token).bind (fun dec => asNum (jsonGet dec "exp"))

/-- checkSession (src/unnamed/part_001 lines 598-622), run once at page
load with the current `Date.now()` in milliseconds: missing (or falsy)
token is a no-op; a corrupt token or an expired one forces
clientSideLogout; otherwise nothing happens. -/
def checkSession (nowMs : Int) (st : Storage) : Storage × List Timed :=
  match st.jwtToken with
  | none => (st, [])
  | some token =>
    if token = "" then (st, [])
    else
      match parseJwt token with
      | none => clientSideLogout st
      | some dec =>
        if !(jsTruthy dec && jsTruthyOpt (jsonGet dec "exp")) then clientSideLogout st
        else if isExpiredAt nowMs (jsonGet dec "exp") then clientSideLogout st
        else (st, [])

/-- An htmx:responseError event, as seen by the listeners: the xhr status
and the request path. -/
structure ErrorEvent where
  status : Nat
  path : String
deriving DecidableEq, Repr

/-- The htmx:responseError listener of initEventListeners
(src/unnamed/part_001 lines 203-239).  On a 401 for any path other than
the login submission endpoint it fires a fire-and-forget POST to
/api/auth/logout (whose catch only logs, modelled by the `fetchFails`
outcome), removes the token, emits the auth-changed and warning events and
schedules `location.replace("/")` with a 0 ms timeout.  Anything else is
ignored. -/
def handleResponseError401 (fetchFails : Bool) (e : ErrorEvent) (st : Storage) :
    Storage × List Timed :=
  if e.status = 401 ∧ e.path ≠ "/api/auth/login" then
    ({ st with jwtToken := none },
     [⟨0, .fetchPost "/api/auth/logout"⟩,
      ⟨0, .emitAuthChanged false (some "401")⟩,
      ⟨0, .emitShowMessage "warning"
        "Twoja sesja wygasla lub nie masz uprawnien. Zaloguj sie ponownie." (some 3000)⟩,
      ⟨0, .navigate .replace "/"⟩]
     ++ (if fetchFails then [⟨0, .logError "Błąd podczas serwerowego wylogowania:"⟩] else []))
  else (st, [])

/-- The path-checked htmx:responseError listener of src/static/app.js
lines 187-241: a 401 on the login submission path is left entirely to the
inline form display (only a console warning); a 401 elsewhere clears the
token, emits the auth-changed and warning events and schedules
`location.replace("/")` after 700 ms. -/
def responseErrorAppJs (e : ErrorEvent) (st : Storage) : Storage × List Timed :=
  if e.status = 401 then
    if e.path = "/api/auth/login" then (st, [])
    else
      ({ st with jwtToken := none },
       [⟨0, .emitAuthChanged false none⟩,
        ⟨0, .emitShowMessage "warning"
          "Twoja sesja wygasla lub nie masz uprawnien. Zaloguj sie ponownie." none⟩,
        ⟨700, .navigate .replace "/"⟩])
  else (st, [])

/-- Deliver a sequence of response-error events to handleResponseError401,
threading the storage and concatenating the traces (the browser dispatches
the events one after another; the code keeps no state between them). -/
def runResponseErrors (fetchFails : Bool) (st : Storage) :
    List ErrorEvent → Storage × List Timed
  | [] => (st, [])
  | e :: es =>
    let r := handleResponseError401 fetchFails e st
    let rest := runResponseErrors fetchFails r.1 es
    (rest.1, r.2 ++ rest.2)

def isHomeReplaceNav (t : Timed) : Bool :=
  match t.act with
  | .navigate .replace "/" => true
  | _ => false

def isReplaceNav (a : Action) : Bool :=
  match a with
  | .navigate .replace _ => true
  | _ => false

def isLog (t : Timed) : Bool :=
  match t.act with
  | .logError _ => true
  | _ => false

/-- First-match lookup in an ordered header list (JS object property
read). -/
def headerGet (hs : List (String × String)) (k : String) : Option String :=
  match hs with
  | [] => none
  | (k', v) :: rest => if k' = k then some v else headerGet rest k

/-- JS object property assignment on an ordered header list: overwrite in
place if the key exists, append otherwise. -/
def setHeader (hs : List (String × String)) (k v : String) : List (String × String) :=
  match hs with
  | [] => [(k, v)]
  | (k', v') :: rest => if k' = k then (k, v) :: rest else (k', v') :: setHeader rest k v

/-- The htmx:configRequest listener (src/static/app.js lines 2-8, identical
in src/unnamed/part_001 lines 166-178): add an X-Guest-Cart-Id header when
a (truthy) guest cart id is stored and an Authorization bearer header when
a (truthy) token is stored; nothing else is touched. -/
def configRequestHeaders (st : Storage) (hs : List (String × String)) :
    List (String × String) :=
  let h1 :=
    match st.guestCartId with
    | some g => if g = "" then hs else setHeader hs "X-Guest-Cart-Id" g
    | none => hs
  match st.jwtToken with
  | some t => if t = "" then h1 else setHeader h1 "Authorization" ("Bearer " ++ t)
  | none => h1

/-- An htmx:beforeRequest event: the request path and whether the request
carries the HX-History-Restore-Request header. -/
structure Request where
  path : String
  historyRestore : Bool
deriving DecidableEq, Repr

/-- The htmx:beforeRequest handler of src/unnamed/part_009 lines 16-26:
requests for the root path are cancelled in favour of a full navigation
before the spinner is shown; the spinner is shown for every other request —
the historyRestore header is never consulted.  Returns the new shown state
of the spinner and the emitted actions. -/
def beforeRequestP9 (req : Request) (shown : Bool) : Bool × List Timed :=
  if req.path = "/" ∨ req.path = "" then (shown, [⟨0, .navigate .assign "/"⟩])
  else (true, [])

/-- The htmx:beforeRequest handler of src/unnamed/part_001 lines 68-77: the
spinner is shown first, and only then are root-path requests cancelled and
turned into a full navigation, with the spinner left showing. -/
def beforeRequestP1 (req : Request) (_shown : Bool) : Bool × List Timed :=
  let shown' := true
  if req.path = "/" ∨ req.path = "" then (shown', [⟨0, .navigate .assign "/"⟩])
  else (shown', [])

/-- hideSpinner (src/unnamed/part_009 lines 11-13), registered for
htmx:afterRequest, htmx:sendError and htmx:responseError (lines 29-33):
unconditionally removes the show class. -/
def hideSpinner (_ : Bool) : Bool := false

/-- The pageshow handler of src/unnamed/part_009 lines 37-45: on a
persisted (back/forward-cache) restore, schedule hideSpinner after a 200 ms
grace delay. -/
def pageshowP9 (persisted : Bool) (shown : Bool) : Bool × List Timed :=
  if persisted then (shown, [⟨200, .spinnerHide⟩]) else (shown, [])

/-- Apply a scheduled spinner action when its timer fires. -/
def applySpinnerTimer (shown : Bool) (t : Timed) : Bool :=
  match t.act with
  | .spinnerShow => true
  | .spinnerHide => false
  | _ => shown

/-- A loginSuccessDetails event: the optional token carried in its
detail. -/
structure LoginEvent where
  token : Option String
deriving DecidableEq, Repr

/-- The loginSuccessDetails listener, server-driven version
(src/unnamed/part_000 lines 274-313): a truthy token is stored, an
auth-changed event is emitted, and after a 700 ms timeout an htmx
navigation to /htmx/moje-konto with pushUrl /moje-konto is issued (a
history-pushing partial navigation); a missing token only yields an error
notification. -/
def loginSuccessServerDriven (e : LoginEvent) (st : Storage) : Storage × List Timed :=
  match e.token with
  | some t =>
    if t = "" then
      (st, [⟨0, .emitShowMessage "error" "Błąd logowania: brak tokenu (klient)." none⟩])
    else
      ({ st with jwtToken := some t },
       [⟨0, .emitAuthChanged true none⟩,
        ⟨700, .htmxNav "/htmx/moje-konto" "/moje-konto"⟩])
  | none => (st, [⟨0, .emitShowMessage "error" "Błąd logowania: brak tokenu (klient)." none⟩])

/-- The loginSuccessDetails listener, full-reload version
(src/static/app.js lines 120-144): a truthy token is stored and
`window.location.replace("/")` is called immediately; a missing token only
yields an error notification. -/
def loginSuccessFullReload (e : LoginEvent) (st : Storage) : Storage × List Timed :=
  match e.token with
  | some t =>
    if t = "" then
      (st, [⟨0, .emitShowMessage "error" "Blad logowania: brak tokenu (klient)." none⟩])
    else
      ({ st with jwtToken := some t }, [⟨0, .navigate .replace "/"⟩])
  | none => (st, [⟨0, .emitShowMessage "error" "Blad logowania: brak tokenu (klient)." none⟩])

/-! Scroll position memory (src/unnamed/part_001 lines 632-683).  The
saved pair is kept JSON-encoded under the "productScrollPosition" key;
restoring parses it, and on a URL match schedules a 100 ms callback that
scrolls and only then removes the key — so the state needs an explicit
queue of pending timer callbacks. -/

def digitChar (n : Nat) : Char := Char.ofNat (48 + n % 10)

def natDigitsRev : Nat → Nat → List Char
  | 0, _ => []
  | fuel + 1, n => if n < 10 then [digitChar n] else digitChar (n % 10) :: natDigitsRev fuel (n / 10)

def intToChars (n : Int) : List Char :=
  if n < 0 then '-' :: (natDigitsRev (n.natAbs + 1) n.natAbs).reverse
  else (natDigitsRev (n.natAbs + 1) n.natAbs).reverse

/-- Escaping of string characters by JSON.stringify (quotes and
backslashes; the URLs the code stores contain no control characters). -/
def escStrChars : List Char → List Char
  | [] => []
  | c :: rest =>
    if c = '"' ∨ c = '\\' then '\\' :: c :: escStrChars rest
    else c :: escStrChars rest

/-- Model of `JSON.stringify({position: pos, returnUrl: url})` as built by
saveScrollPositionForProductLink. -/
def encodeScrollData (pos : Int) (url : String) : String :=
  ⟨'\x7b' :: '"' :: 'p' :: 'o' :: 's' :: 'i' :: 't' :: 'i' :: 'o' :: 'n' :: '"' :: ':' ::
    (intToChars pos ++ ',' :: '"' :: 'r' :: 'e' :: 't' :: 'u' :: 'r' :: 'n' :: 'U' :: 'r' ::
      'l' :: '"' :: ':' :: '"' :: (escStrChars url.data ++ '"' :: ['\x7d']))⟩

/-- saveScrollPositionForProductLink (src/unnamed/part_001 lines 638-651):
persist the current scroll offset and full URL under the restoration
key. -/
def saveScrollPositionForProductLink (scrollY : Int) (url : String) (st : Storage) : Storage :=
  { st with scrollData := some (encodeScrollData scrollY url) }

/-- The state restoreScrollPosition acts on: the storage, the current full
URL, the queue of scheduled 100 ms restore callbacks (each carrying the
position it captured), and the trace of executed window.scrollTo tops. -/
structure ScrollEnv where
  storage : Storage
  url : String
  pending : List (Option Int)
  scrolls : List Int
deriving DecidableEq, Repr

/-- restoreScrollPosition (src/unnamed/part_001 lines 658-683): a missing
(or falsy) stored value is a no-op; an unparsable one is removed (the catch
branch); on a URL match a 100 ms callback is scheduled (which will scroll
and remove the key) and true is returned; on a mismatch the stale pair is
removed immediately. -/
def restoreScrollPosition (env : ScrollEnv) : ScrollEnv × Bool :=
  match env.storage.scrollData with
  | none => (env, false)
  | some raw =>
    if raw = "" then (env, false)
    else
      match jsonParse raw with
      | none => ({ env with storage := { env.storage with scrollData := none } }, false)
      | some j =>
        if asStr (jsonGet j "returnUrl") = some env.url then
          ({ env with pending := env.pending ++ [asNum (jsonGet j "position")] }, true)
        else
          ({ env with storage := { env.storage with scrollData := none } }, false)

/-- Run the oldest pending 100 ms callback: scroll to the captured position
(scrollTo with an undefined top leaves the offset alone) and remove the
stored pair. -/
def runScrollTimer (env : ScrollEnv) : ScrollEnv :=
  match env.pending with
  | [] => env
  | p :: rest =>
    { env with
      pending := rest
      scrolls := env.scrolls ++ (match p with | some n => [n] | none => [])
      storage := { env.storage with scrollData := none } }

def flushScrollTimersAux : List (Option Int) → ScrollEnv → ScrollEnv
  | [], env => env
  | _ :: rest, env => flushScrollTimersAux rest (runScrollTimer env)

/-- Let every pending restore callback fire. -/
def flushScrollTimers (env : ScrollEnv) : ScrollEnv :=
  flushScrollTimersAux env.pending env

/-- Call restoreScrollPosition and let the callback it may have scheduled
fire. -/
def callThenSettle (env : ScrollEnv) : ScrollEnv :=
  flushScrollTimers (restoreScrollPosition env).1

/-- The stored pair's returnUrl, when the stored value parses and the field
is a string. -/
def storedReturnUrl (st : Storage) : Option String :=
  st.scrollData.bind (fun raw => (jsonParse raw).bind (fun j => asStr (jsonGet j "returnUrl")))

/-- The stored pair's position, when the stored value parses and the field
is a number. -/
def storedPosition (st : Storage) : Option Int :=
  st.scrollData.bind (fun raw => (jsonParse raw).bind (fun j => asNum (jsonGet j "position")))

/-- Whether the stored scroll value parses as JSON. -/
def storedParses (st : Storage) : Bool :=
  match st.scrollData with
  | some raw => (jsonParse raw).isSome
  | none => false

/-! Theorems. -/

/-- C9: parseJwt is total on every input string — including strings that
are not JWTs, have no payload segment, or contain invalid base64 or invalid
JSON: either the try body succeeds and the decoded payload is returned, or
some step of the body throws and the catch returns null; no exception
reaches the caller. -/
theorem parseJwt_total_or_null (token : String) :
    (∃ j, parseJwtBody token = .ok j ∧ parseJwt token = some j) ∨
    (∃ e, parseJwtBody token = .error e ∧ parseJwt token = none) := by
  cases h : parseJwtBody token with
  | ok j => exact .inl ⟨j, rfl, by simp [parseJwt, h]⟩
  | error e => exact .inr ⟨e, rfl, by simp [parseJwt, h]⟩

/-- C1: for a stored (truthy) token whose decoded integral expiry claim is
strictly in the past at the (positive) check time, checkSession removes the
token from storage and performs a full navigation to "/" via the
forced-logout routine; when the expiry is not in the past, checkSession
returns the storage unchanged and emits no action at all. -/
theorem checkSession_expiry (nowMs : Int) (st : Storage) (t : String) (n : Int)
    (ht : st.jwtToken = some t) (he : expClaim t = some n) (hnow : 0 < nowMs) :
    (n * 1000 < nowMs →
      (checkSession nowMs st).1.jwtToken = none ∧
      (⟨0, Action.navigate .assign "/"⟩ : Timed) ∈ (checkSession nowMs st).2) ∧
    (¬ n * 1000 < nowMs → checkSession nowMs st = (st, [])) := by
  have h0 : t ≠ "" := by
    intro h
    rw [h] at he
    rw [show expClaim "" = none from rfl] at he
    exact Option.noConfusion he
  cases hpj : parseJwt t with
  | none => simp [expClaim, hpj] at he
  | some dec =>
    have hnum : asNum (jsonGet dec "exp") = some n := by
      simpa [expClaim, hpj] using he
    cases hg : jsonGet dec "exp" with
    | none => rw [hg] at hnum; simp [asNum] at hnum
    | some v =>
      rw [hg] at hnum
      have hv : v = Json.num n := by
        cases v <;> simp [asNum] at hnum
        simp [hnum]
      subst hv
      cases dec with
      | null => simp [jsonGet] at hg
      | bool b => simp [jsonGet] at hg
      | num m => simp [jsonGet] at hg
      | str s => simp [jsonGet] at hg
      | arr es => simp [jsonGet] at hg
      | obj fields =>
        constructor
        · intro hlt
          by_cases hn0 : n = 0
          · have hr : checkSession nowMs st = clientSideLogout st := by
              simp [checkSession, ht, h0, hpj, hg, jsTruthy, jsTruthyOpt, hn0]
            rw [hr]
            simp [clientSideLogout]
          · have hr : checkSession nowMs st = clientSideLogout st := by
              simp [checkSession, ht, h0, hpj, hg, jsTruthy, jsTruthyOpt, bne_iff_ne, hn0,
                isExpiredAt, jsToNumber, hlt]
            rw [hr]
            simp [clientSideLogout]
        · intro hge
          have hn0 : n ≠ 0 := by
            intro h
            subst h
            simp at hge
            omega
          simp [checkSession, ht, h0, hpj, hg, jsTruthy, jsTruthyOpt, bne_iff_ne, hn0,
            isExpiredAt, jsToNumber, hge]

/-- C1 witness: a stored token with payload \x7b"exp":1\x7d checked at
nowMs = 2000 (so the expiry, second 1, is strictly in the past) loses its
token and navigates to "/". -/
theorem checkSession_expiry_witness :
    (0 : Int) < 2000 ∧
    ((checkSession 2000 ⟨some "h.eyJleHAiOjF9.s", none, none⟩).1.jwtToken = none ∧
      (⟨0, Action.navigate .assign "/"⟩ : Timed) ∈
        (checkSession 2000 ⟨some "h.eyJleHAiOjF9.s", none, none⟩).2) :=
  ⟨by decide,
   (checkSession_expiry 2000 ⟨some "h.eyJleHAiOjF9.s", none, none⟩ "h.eyJleHAiOjF9.s" 1
      rfl (by decide) (by decide)).1 (by decide)⟩

/-- C2: a stored (truthy) token that parseJwt fails to decode, or whose
decoded payload lacks a truthy exp claim, makes checkSession take exactly
the same clientSideLogout path an expired token takes: the result equals
clientSideLogout of the state, so the token is deleted and a full
navigation to "/" is emitted — no malformed or partial token survives the
check.  (Every write of the jwtToken key in the code stores a truthy token,
so stored tokens are nonempty.) -/
theorem checkSession_corrupt (nowMs : Int) (st : Storage) (t : String)
    (ht : st.jwtToken = some t) (h0 : t ≠ "") (hc : jwtCorrupt t = true) :
    checkSession nowMs st = clientSideLogout st ∧
    (checkSession nowMs st).1.jwtToken = none ∧
    (⟨0, Action.navigate .assign "/"⟩ : Timed) ∈ (checkSession nowMs st).2 := by
  have hmain : checkSession nowMs st = clientSideLogout st := by
    cases hpj : parseJwt t with
    | none => simp [checkSession, ht, h0, hpj]
    | some dec =>
      have hcond : (jsTruthy dec && jsTruthyOpt (jsonGet dec "exp")) = false := by
        simp only [jwtCorrupt, hpj] at hc
        cases h : (jsTruthy dec && jsTruthyOpt (jsonGet dec "exp")) with
        | false => rfl
        | true => rw [h] at hc; exact absurd hc (by decide)
      simp [checkSession, ht, h0, hpj, hcond]
  refine ⟨hmain, ?_, ?_⟩ <;> rw [hmain] <;> simp [clientSideLogout]

/-- C2 witness: the stored value "garbage" is not parseable as a JWT, and
checkSession on it coincides with clientSideLogout. -/
theorem checkSession_corrupt_witness :
    ("garbage" ≠ "" ∧ jwtCorrupt "garbage" = true) ∧
    checkSession 2000 ⟨some "garbage", none, none⟩ =
      clientSideLogout ⟨some "garbage", none, none⟩ :=
  ⟨⟨by decide, by decide⟩,
   (checkSession_corrupt 2000 ⟨some "garbage", none, none⟩ "garbage" rfl (by decide)
      (by decide)).1⟩

/-- C3: a 401 response whose request path is the login submission endpoint
"/api/auth/login" is a credential rejection for both path-checked
htmx:responseError listeners: the storage (hence the token and the
location) is untouched and no event, navigation or fetch is emitted at
all, regardless of whether a background logout fetch would fail. -/
theorem responseError_loginPath_noop (st : Storage) (fetchFails : Bool) (e : ErrorEvent)
    (h1 : e.status = 401) (h2 : e.path = "/api/auth/login") :
    responseErrorAppJs e st = (st, []) ∧
    handleResponseError401 fetchFails e st = (st, []) := by
  constructor
  · simp [responseErrorAppJs, h1, h2]
  · simp [handleResponseError401, h1, h2]

/-- C3 witness: a concrete 401 on the login submission path leaves a state
holding a token and a guest id completely unchanged under both
listeners. -/
theorem responseError_loginPath_noop_witness :
    ((401 : Nat) = 401 ∧ "/api/auth/login" = "/api/auth/login") ∧
    responseErrorAppJs ⟨401, "/api/auth/login"⟩ ⟨some "tok", some "g1", none⟩ =
      (⟨some "tok", some "g1", none⟩, []) ∧
    handleResponseError401 true ⟨401, "/api/auth/login"⟩ ⟨some "tok", some "g1", none⟩ =
      (⟨some "tok", some "g1", none⟩, []) :=
  ⟨⟨rfl, rfl⟩,
   (responseError_loginPath_noop ⟨some "tok", some "g1", none⟩ true
      ⟨401, "/api/auth/login"⟩ rfl rfl).1,
   (responseError_loginPath_noop ⟨some "tok", some "g1", none⟩ true
      ⟨401, "/api/auth/login"⟩ rfl rfl).2⟩

/-- C10: on a 401 for a non-login path, the refactored listener issues a
fire-and-forget POST to /api/auth/logout, and a failure of that request is
only logged: the token deletion, the auth-changed event, the warning
notification and the zero-delay replace navigation to "/" are present and
identical whether or not the fetch fails — failure only appends a console
error to the trace. -/
theorem responseError_fetchFailure_only_logged (st : Storage) (e : ErrorEvent) (b : Bool)
    (h1 : e.status = 401) (h2 : e.path ≠ "/api/auth/login") :
    (handleResponseError401 b e st).1 = { st with jwtToken := none } ∧
    (⟨0, Action.fetchPost "/api/auth/logout"⟩ : Timed) ∈ (handleResponseError401 b e st).2 ∧
    (⟨0, Action.emitAuthChanged false (some "401")⟩ : Timed) ∈
      (handleResponseError401 b e st).2 ∧
    (⟨0, Action.emitShowMessage "warning"
        "Twoja sesja wygasla lub nie masz uprawnien. Zaloguj sie ponownie." (some 3000)⟩ :
      Timed) ∈ (handleResponseError401 b e st).2 ∧
    (⟨0, Action.navigate .replace "/"⟩ : Timed) ∈ (handleResponseError401 b e st).2 ∧
    (handleResponseError401 b e st).2.filter (fun a => !isLog a) =
      (handleResponseError401 false e st).2.filter (fun a => !isLog a) := by
  cases b <;> simp [handleResponseError401, h1, h2, isLog, List.filter]

/-- C10 witness: a failing logout fetch on a concrete 401 still deletes the
token. -/
theorem responseError_fetchFailure_only_logged_witness :
    ((401 : Nat) = 401 ∧ "/api/konto" ≠ "/api/auth/login") ∧
    (handleResponseError401 true ⟨401, "/api/konto"⟩ ⟨some "tok", none, none⟩).1 =
      { (⟨some "tok", none, none⟩ : Storage) with jwtToken := none } :=
  ⟨⟨rfl, by decide⟩,
   (responseError_fetchFailure_only_logged ⟨some "tok", none, none⟩ ⟨401, "/api/konto"⟩
      true rfl (by decide)).1⟩

/-- Unfolding of runResponseErrors on a cons cell. -/
theorem runResponseErrors_cons (ff : Bool) (st : Storage) (e : ErrorEvent)
    (es : List ErrorEvent) :
    runResponseErrors ff st (e :: es) =
      ((runResponseErrors ff (handleResponseError401 ff e st).1 es).1,
       (handleResponseError401 ff e st).2 ++
         (runResponseErrors ff (handleResponseError401 ff e st).1 es).2) := rfl

/-- C4 counterexample: two 401 responses on the same non-login path,
delivered back to back, schedule two replace navigations to "/" — not
exactly one; there is no debounce in the handler. -/
theorem responseError_duplicate_nav_counterexample :
    (runResponseErrors false ⟨some "tok", none, none⟩
        [⟨401, "/api/konto"⟩, ⟨401, "/api/konto"⟩]).2.countP isHomeReplaceNav = 2 ∧
    ¬(runResponseErrors false ⟨some "tok", none, none⟩
        [⟨401, "/api/konto"⟩, ⟨401, "/api/konto"⟩]).2.countP isHomeReplaceNav = 1 := by
  decide

/-- C4 (amended): the handler has no debounce: every 401 on a non-login
path removes the token (idempotently — the storage changes only on the
first), and schedules its own zero-delay replace navigation to "/", so a
sequence of k such responses yields exactly k scheduled navigations home
and leaves no token in storage. -/
theorem responseError_nav_per_event (ff : Bool) (es : List ErrorEvent) (st : Storage)
    (h : ∀ e ∈ es, e.status = 401 ∧ e.path ≠ "/api/auth/login") :
    (runResponseErrors ff st es).2.countP isHomeReplaceNav = es.length ∧
    (es ≠ [] → (runResponseErrors ff st es).1.jwtToken = none) := by
  induction es generalizing st with
  | nil => simp [runResponseErrors]
  | cons e es ih =>
    obtain ⟨h1, h2⟩ := h e (List.mem_cons_self e es)
    have hh : ∀ e' ∈ es, e'.status = 401 ∧ e'.path ≠ "/api/auth/login" :=
      fun e' he' => h e' (List.mem_cons_of_mem e he')
    have hst : (handleResponseError401 ff e st).1 = { st with jwtToken := none } := by
      simp [handleResponseError401, h1, h2]
    have hcount : (handleResponseError401 ff e st).2.countP isHomeReplaceNav = 1 := by
      cases ff <;> simp [handleResponseError401, h1, h2] <;> decide
    have ihr := ih { st with jwtToken := none } hh
    rw [runResponseErrors_cons, hst]
    constructor
    · rw [List.countP_append, hcount, ihr.1]
      simp [Nat.add_comm]
    · intro _
      cases es with
      | nil => simp [runResponseErrors]
      | cons e2 es2 => exact ihr.2 (by simp)

/-- C4 (amended) witness: three back-to-back 401s on non-login paths yield
three scheduled navigations home and an empty token slot. -/
theorem responseError_nav_per_event_witness :
    (∀ e ∈ ([⟨401, "/api/konto"⟩, ⟨401, "/htmx/cart/details"⟩, ⟨401, "/api/konto"⟩] :
        List ErrorEvent), e.status = 401 ∧ e.path ≠ "/api/auth/login") ∧
    (runResponseErrors true ⟨some "tok", none, none⟩
        [⟨401, "/api/konto"⟩, ⟨401, "/htmx/cart/details"⟩, ⟨401, "/api/konto"⟩]).2.countP
        isHomeReplaceNav = 3 :=
  ⟨by decide,
   (responseError_nav_per_event true
      [⟨401, "/api/konto"⟩, ⟨401, "/htmx/cart/details"⟩, ⟨401, "/api/konto"⟩]
      ⟨some "tok", none, none⟩ (by decide)).1⟩

/-- Assigning a header makes it readable. -/
theorem headerGet_setHeader_self (hs : List (String × String)) (k v : String) :
    headerGet (setHeader hs k v) k = some v := by
  induction hs with
  | nil => simp [setHeader, headerGet]
  | cons p rest ih =>
    obtain ⟨k', v'⟩ := p
    by_cases h : k' = k
    · simp [setHeader, h, headerGet]
    · simp [setHeader, h, headerGet, ih]

/-- Assigning a header leaves every other header unchanged. -/
theorem headerGet_setHeader_other (hs : List (String × String)) (k v k' : String)
    (h : k' ≠ k) :
    headerGet (setHeader hs k v) k' = headerGet hs k' := by
  have h' : k ≠ k' := fun hh => h hh.symm
  induction hs with
  | nil => simp [setHeader, headerGet, h']
  | cons p rest ih =>
    obtain ⟨k'', v''⟩ := p
    by_cases hk : k'' = k
    · subst hk
      simp [setHeader, headerGet, h']
    · simp [setHeader, hk, headerGet, ih]

/-- C6 counterexample: with a guest cart identity "g1" stored and no
token, the decorator adds the header under the name "X-Guest-Cart-Id";
no header named "Guest-Cart-Id" (the name the claim uses) is ever
attached. -/
theorem configRequest_header_name_counterexample :
    configRequestHeaders ⟨none, some "g1", none⟩ [] = [("X-Guest-Cart-Id", "g1")] ∧
    headerGet (configRequestHeaders ⟨none, some "g1", none⟩ []) "Guest-Cart-Id" = none := by
  decide

/-- C6 (amended): on every outbound request the decorator attaches an
X-Guest-Cart-Id header exactly when a truthy guest cart identity is in
storage and an `Authorization: Bearer token` header exactly when a truthy
session token is in storage; it changes no other header, and when neither
is stored the header list is returned untouched (in particular nothing is
thrown on empty storage: the decorator is a total function of the
state). -/
theorem configRequest_headers_spec (st : Storage) (hs : List (String × String))
    (h1 : headerGet hs "X-Guest-Cart-Id" = none)
    (h2 : headerGet hs "Authorization" = none) :
    headerGet (configRequestHeaders st hs) "X-Guest-Cart-Id" =
      (match st.guestCartId with
       | some g => if g = "" then none else some g
       | none => none) ∧
    headerGet (configRequestHeaders st hs) "Authorization" =
      (match st.jwtToken with
       | some t => if t = "" then none else some ("Bearer " ++ t)
       | none => none) ∧
    (∀ k, k ≠ "X-Guest-Cart-Id" → k ≠ "Authorization" →
      headerGet (configRequestHeaders st hs) k = headerGet hs k) ∧
    ((st.guestCartId = none ∨ st.guestCartId = some "") →
      (st.jwtToken = none ∨ st.jwtToken = some "") →
      configRequestHeaders st hs = hs) := by
  cases hg : st.guestCartId with
  | none =>
    cases htk : st.jwtToken with
    | none =>
      refine ⟨?_, ?_, ?_, ?_⟩ <;>
        simp [configRequestHeaders, hg, htk, h1, h2]
    | some t =>
      by_cases ht0 : t = ""
      · refine ⟨?_, ?_, ?_, ?_⟩ <;>
          simp [configRequestHeaders, hg, htk, ht0, h1, h2]
      · have hrw : configRequestHeaders st hs =
            setHeader hs "Authorization" ("Bearer " ++ t) := by
          simp [configRequestHeaders, hg, htk, ht0]
        refine ⟨?_, ?_, ?_, ?_⟩
        · rw [hrw, headerGet_setHeader_other _ _ _ _ (by simp), h1]
        · rw [hrw, headerGet_setHeader_self]
          simp [ht0]
        · intro k hk1 hk2
          rw [hrw, headerGet_setHeader_other _ _ _ _ hk2]
        · intro _ hta
          rcases hta with hta | hta
          · exact absurd hta (by simp)
          · simp only [Option.some.injEq] at hta
            exact absurd hta ht0
  | some g =>
    by_cases hg0 : g = ""
    · cases htk : st.jwtToken with
      | none =>
        refine ⟨?_, ?_, ?_, ?_⟩ <;>
          simp [configRequestHeaders, hg, hg0, htk, h1, h2]
      | some t =>
        by_cases ht0 : t = ""
        · refine ⟨?_, ?_, ?_, ?_⟩ <;>
            simp [configRequestHeaders, hg, hg0, htk, ht0, h1, h2]
        · have hrw : configRequestHeaders st hs =
              setHeader hs "Authorization" ("Bearer " ++ t) := by
            simp [configRequestHeaders, hg, hg0, htk, ht0]
          refine ⟨?_, ?_, ?_, ?_⟩
          · rw [hrw, headerGet_setHeader_other _ _ _ _ (by simp), h1]
            simp [hg0]
          · rw [hrw, headerGet_setHeader_self]
            simp [ht0]
          · intro k hk1 hk2
            rw [hrw, headerGet_setHeader_other _ _ _ _ hk2]
          · intro _ hta
            rcases hta with hta | hta
            · exact absurd hta (by simp)
            · simp only [Option.some.injEq] at hta
              exact absurd hta ht0
    · cases htk : st.jwtToken with
      | none =>
        have hrw : configRequestHeaders st hs = setHeader hs "X-Guest-Cart-Id" g := by
          simp [configRequestHeaders, hg, hg0, htk]
        refine ⟨?_, ?_, ?_, ?_⟩
        · rw [hrw, headerGet_setHeader_self]
          simp [hg0]
        · rw [hrw, headerGet_setHeader_other _ _ _ _ (by simp), h2]
        · intro k hk1 hk2
          rw [hrw, headerGet_setHeader_other _ _ _ _ hk1]
        · intro hga _
          rcases hga with hga | hga
          · exact absurd hga (by simp)
          · simp only [Option.some.injEq] at hga
            exact absurd hga hg0
      | some t =>
        by_cases ht0 : t = ""
        · have hrw : configRequestHeaders st hs = setHeader hs "X-Guest-Cart-Id" g := by
            simp [configRequestHeaders, hg, hg0, htk, ht0]
          refine ⟨?_, ?_, ?_, ?_⟩
          · rw [hrw, headerGet_setHeader_self]
            simp [hg0]
          · rw [hrw, headerGet_setHeader_other _ _ _ _ (by simp), h2]
            simp [ht0]
          · intro k hk1 hk2
            rw [hrw, headerGet_setHeader_other _ _ _ _ hk1]
          · intro hga _
            rcases hga with hga | hga
            · exact absurd hga (by simp)
            · simp only [Option.some.injEq] at hga
              exact absurd hga hg0
        · have hrw : configRequestHeaders st hs =
              setHeader (setHeader hs "X-Guest-Cart-Id" g) "Authorization"
                ("Bearer " ++ t) := by
            simp [configRequestHeaders, hg, hg0, htk, ht0]
          refine ⟨?_, ?_, ?_, ?_⟩
          · rw [hrw, headerGet_setHeader_other _ _ _ _ (by simp),
              headerGet_setHeader_self]
            simp [hg0]
          · rw [hrw, headerGet_setHeader_self]
            simp [ht0]
          · intro k hk1 hk2
            rw [hrw, headerGet_setHeader_other _ _ _ _ hk2,
              headerGet_setHeader_other _ _ _ _ hk1]
          · intro hga _
            rcases hga with hga | hga
            · exact absurd hga (by simp)
            · simp only [Option.some.injEq] at hga
              exact absurd hga hg0

/-- C6 (amended) witness: with both a guest id and a token stored, both
headers are attached to an empty header list; the other-keys clause and
the empty-storage clause are instantiated as well. -/
theorem configRequest_headers_spec_witness :
    (headerGet ([] : List (String × String)) "X-Guest-Cart-Id" = none ∧
      headerGet ([] : List (String × String)) "Authorization" = none) ∧
    headerGet (configRequestHeaders ⟨some "abc", some "g1", none⟩ []) "X-Guest-Cart-Id" =
      some "g1" ∧
    headerGet (configRequestHeaders ⟨some "abc", some "g1", none⟩ []) "Authorization" =
      some "Bearer abc" :=
  ⟨⟨rfl, rfl⟩,
   (configRequest_headers_spec ⟨some "abc", some "g1", none⟩ [] rfl rfl).1,
   (configRequest_headers_spec ⟨some "abc", some "g1", none⟩ [] rfl rfl).2.1⟩

/-- C8 counterexample: the server-driven login handler fired with token
"abc123" stores the token, but its scheduled (700 ms) navigation is an
htmx request pushing /moje-konto onto the history — the trace contains no
history-replacing navigation at all; and the full-reload variant issues
its replace navigation immediately (delay 0), not after a scheduled
delay. -/
theorem loginSuccess_replace_counterexample :
    (loginSuccessServerDriven ⟨some "abc123"⟩ ⟨none, none, none⟩).2 =
      [⟨0, .emitAuthChanged true none⟩,
       ⟨700, .htmxNav "/htmx/moje-konto" "/moje-konto"⟩] ∧
    (loginSuccessServerDriven ⟨some "abc123"⟩ ⟨none, none, none⟩).2.all
      (fun a => !isReplaceNav a.act) = true ∧
    (loginSuccessFullReload ⟨some "abc123"⟩ ⟨none, none, none⟩).2 =
      [⟨0, .navigate .replace "/"⟩] := by
  decide

/-- C8 (amended): when the login-success event carries a (truthy) token,
both handler versions store exactly that token under the session-token
key; the server-driven version emits the auth-changed event and after the
fixed 700 ms delay issues an htmx navigation to the authenticated landing
view (/htmx/moje-konto, displayed as /moje-konto) that pushes a history
entry, so back-navigation can return to the login form; the full-reload
version instead immediately issues a history-replacing full navigation to
"/". -/
theorem loginSuccess_stores_and_navigates (st : Storage) (t : String) (ht : t ≠ "") :
    loginSuccessServerDriven ⟨some t⟩ st =
      ({ st with jwtToken := some t },
       [⟨0, .emitAuthChanged true none⟩,
        ⟨700, .htmxNav "/htmx/moje-konto" "/moje-konto"⟩]) ∧
    loginSuccessFullReload ⟨some t⟩ st =
      ({ st with jwtToken := some t }, [⟨0, .navigate .replace "/"⟩]) := by
  constructor <;> simp [loginSuccessServerDriven, loginSuccessFullReload, ht]

/-- C8 (amended) witness: firing the server-driven handler with token
"abc123" stores exactly that token and schedules the 700 ms push
navigation. -/
theorem loginSuccess_stores_and_navigates_witness :
    "abc123" ≠ "" ∧
    loginSuccessServerDriven ⟨some "abc123"⟩ ⟨none, some "g1", none⟩ =
      ({ jwtToken := some "abc123", guestCartId := some "g1", scrollData := none },
       [⟨0, .emitAuthChanged true none⟩,
        ⟨700, .htmxNav "/htmx/moje-konto" "/moje-konto"⟩]) :=
  ⟨by decide,
   (loginSuccess_stores_and_navigates ⟨none, some "g1", none⟩ "abc123" (by decide)).1⟩

/-- C7 counterexample: a beforeRequest event for a non-root path carrying
the history-restoration header still shows the spinner under the part_009
handler — the handler never consults the header, so history-restoration
requests are not excepted; and the part_001 handler shows the spinner even
for a root-path request before cancelling it in favour of a full
navigation, so an indicator is shown for root-path requests there. -/
theorem spinner_counterexample :
    (beforeRequestP9 ⟨"/htmx/cart/details", true⟩ false).1 = true ∧
    beforeRequestP1 ⟨"/", false⟩ false = (true, [⟨0, .navigate .assign "/"⟩]) := by
  decide

/-- C7 (amended): under the part_009 handler the indicator is shown before
every outbound request except those targeting the root path — including
history-restoration requests, which are not excepted — while root-path
requests are cancelled in favour of a full navigation without the
indicator being shown (the part_001 variant shows it even then); the
indicator is hidden unconditionally on request completion, send error and
response error (all three events are wired to the same hideSpinner); and a
persisted page-show schedules a force-hide after a 200 ms grace delay,
which hides it when it fires. -/
theorem spinner_spec (req : Request) (shown : Bool) :
    ((req.path = "/" ∨ req.path = "") →
      beforeRequestP9 req shown = (shown, [⟨0, .navigate .assign "/"⟩]) ∧
      beforeRequestP1 req shown = (true, [⟨0, .navigate .assign "/"⟩])) ∧
    (¬(req.path = "/" ∨ req.path = "") →
      beforeRequestP9 req shown = (true, []) ∧
      beforeRequestP1 req shown = (true, [])) ∧
    hideSpinner shown = false ∧
    pageshowP9 true shown = (shown, [⟨200, .spinnerHide⟩]) ∧
    applySpinnerTimer shown ⟨200, .spinnerHide⟩ = false := by
  refine ⟨?_, ?_, rfl, ?_, rfl⟩
  · intro h
    constructor <;> simp [beforeRequestP9, beforeRequestP1, h]
  · intro h
    constructor <;> simp [beforeRequestP9, beforeRequestP1, h]
  · simp [pageshowP9]

/-- C7 (amended) witness: a root-path request is cancelled into a full
navigation by the part_009 handler without the spinner being shown. -/
theorem spinner_spec_witness :
    (("/" : String) = "/" ∨ ("/" : String) = "") ∧
    beforeRequestP9 ⟨"/", false⟩ false = (false, [⟨0, .navigate .assign "/"⟩]) :=
  ⟨Or.inl rfl, ((spinner_spec ⟨"/", false⟩ false).1 (Or.inl rfl)).1⟩

/-- C5 counterexample: with the pair (500, "u") stored and the current URL
"u", a second call to restoreScrollPosition made before the first call's
100 ms callback has fired is not a no-op: it again reports a restore and
schedules a second identical callback (the state changes again), and
letting the callbacks fire scrolls twice. -/
theorem restoreScroll_counterexample :
    (restoreScrollPosition (restoreScrollPosition
        ⟨⟨none, none, some (encodeScrollData 500 "u")⟩, "u", [], []⟩).1).2 = true ∧
    (restoreScrollPosition (restoreScrollPosition
        ⟨⟨none, none, some (encodeScrollData 500 "u")⟩, "u", [], []⟩).1).1 ≠
      (restoreScrollPosition
        ⟨⟨none, none, some (encodeScrollData 500 "u")⟩, "u", [], []⟩).1 ∧
    (flushScrollTimers (restoreScrollPosition (restoreScrollPosition
        ⟨⟨none, none, some (encodeScrollData 500 "u")⟩, "u", [], []⟩).1).1).scrolls =
      [500, 500] := by
  decide

/-- C5 (amended): with no callback pending, restoreScrollPosition restores
the saved offset (schedules the 100 ms callback and returns true) exactly
when the stored pair's returnUrl equals the current full URL, and the
stored pair is deleted in either case — by the delayed callback after
restoring on a match, immediately without restoring on a mismatch or on an
unparsable value; once the callback has fired (or after a mismatch), a
subsequent call is a no-op.  (A second call made before the 100 ms
callback fires instead schedules a second identical restore; see the
counterexample.) -/
theorem restoreScroll_spec (env : ScrollEnv) (raw : String) (p : Int)
    (hp : env.pending = []) (hraw : env.storage.scrollData = some raw) (h0 : raw ≠ "") :
    (storedReturnUrl env.storage = some env.url → storedPosition env.storage = some p →
      (restoreScrollPosition env).2 = true ∧
      callThenSettle env =
        { env with
            storage := { env.storage with scrollData := none }
            pending := []
            scrolls := env.scrolls ++ [p] } ∧
      restoreScrollPosition (callThenSettle env) = (callThenSettle env, false)) ∧
    (storedParses env.storage = true → storedReturnUrl env.storage ≠ some env.url →
      restoreScrollPosition env =
        ({ env with storage := { env.storage with scrollData := none } }, false) ∧
      restoreScrollPosition { env with storage := { env.storage with scrollData := none } } =
        ({ env with storage := { env.storage with scrollData := none } }, false)) ∧
    (storedParses env.storage = false →
      restoreScrollPosition env =
        ({ env with storage := { env.storage with scrollData := none } }, false)) := by
  refine ⟨?_, ?_, ?_⟩
  · intro hu hpos
    cases hj : jsonParse raw with
    | none => simp [storedReturnUrl, hraw, hj] at hu
    | some j =>
      simp only [storedReturnUrl, hraw, Option.some_bind, hj] at hu
      simp only [storedPosition, hraw, Option.some_bind, hj] at hpos
      have hcall : restoreScrollPosition env =
          ({ env with pending := [asNum (jsonGet j "position")] }, true) := by
        simp [restoreScrollPosition, hraw, h0, hj, hu, hp]
      have hsettle : callThenSettle env =
          { env with
              storage := { env.storage with scrollData := none }
              pending := []
              scrolls := env.scrolls ++ [p] } := by
        rw [callThenSettle, hcall]
        simp [flushScrollTimers, flushScrollTimersAux, runScrollTimer, hpos]
      refine ⟨by simp [hcall], hsettle, ?_⟩
      rw [hsettle]
      simp [restoreScrollPosition]
  · intro hparse hu
    cases hj : jsonParse raw with
    | none => simp [storedParses, hraw, hj] at hparse
    | some j =>
      have hne : ¬ asStr (jsonGet j "returnUrl") = some env.url := by
        intro hcontra
        exact hu (by simp [storedReturnUrl, hraw, hj, hcontra])
      constructor
      · simp [restoreScrollPosition, hraw, h0, hj, hne]
      · simp [restoreScrollPosition]
  · intro hparse
    cases hj : jsonParse raw with
    | none => simp [restoreScrollPosition, hraw, h0, hj]
    | some j => simp [storedParses, hraw, hj] at hparse

/-- C5 (amended) witness: a matching stored pair (500, "u") at URL "u"
restores once. -/
theorem restoreScroll_spec_witness :
    (storedReturnUrl ⟨none, none, some (encodeScrollData 500 "u")⟩ = some "u" ∧
      storedPosition ⟨none, none, some (encodeScrollData 500 "u")⟩ = some 500 ∧
      encodeScrollData 500 "u" ≠ "") ∧
    (restoreScrollPosition
      ⟨⟨none, none, some (encodeScrollData 500 "u")⟩, "u", [], []⟩).2 = true :=
  ⟨⟨by decide, by decide, by decide⟩,
   ((restoreScroll_spec ⟨⟨none, none, some (encodeScrollData 500 "u")⟩, "u", [], []⟩
      (encodeScrollData 500 "u") 500 rfl rfl (by decide)).1 (by decide) (by decide)).1⟩

end ShopClient
